import Mathlib

/-!
# Register map of the `xsort` accelerator control interface

Source: `examples/Whole-App-Acceleration/ssd_mobilenet/tfssd/sort_xrt/xsort_hw_64.h`.

The header consists of sixteen preprocessor constants (lines 65-80): ten byte
offsets `XSORT_CONTROL_ADDR_*` and six bit widths `XSORT_CONTROL_BITS_*`.
Each constant is embedded below as a `Nat` of the same name and the same
literal.  On top of the constants sits a small table view (`RegId`) that
lists the registers in declaration order, so that layout properties
(byte ranges, reserved words, packing) can be stated about the whole map.
-/

namespace XSort

/-! ## The constants of the header, lines 65-80 -/

/-- Line 65: `#define XSORT_CONTROL_ADDR_AP_CTRL 0x00`. -/
def XSORT_CONTROL_ADDR_AP_CTRL : Nat := 0x00
/-- Line 66: `#define XSORT_CONTROL_ADDR_GIE 0x04`. -/
def XSORT_CONTROL_ADDR_GIE : Nat := 0x04
/-- Line 67: `#define XSORT_CONTROL_ADDR_IER 0x08`. -/
def XSORT_CONTROL_ADDR_IER : Nat := 0x08
/-- Line 68: `#define XSORT_CONTROL_ADDR_ISR 0x0c`. -/
def XSORT_CONTROL_ADDR_ISR : Nat := 0x0c
/-- Line 69: `#define XSORT_CONTROL_ADDR_inConf_DATA 0x10`. -/
def XSORT_CONTROL_ADDR_inConf_DATA : Nat := 0x10
/-- Line 70: `#define XSORT_CONTROL_BITS_inConf_DATA 64`. -/
def XSORT_CONTROL_BITS_inConf_DATA : Nat := 64
/-- Line 71: `#define XSORT_CONTROL_ADDR_inBox_DATA 0x1c`. -/
def XSORT_CONTROL_ADDR_inBox_DATA : Nat := 0x1c
/-- Line 72: `#define XSORT_CONTROL_BITS_inBox_DATA 64`. -/
def XSORT_CONTROL_BITS_inBox_DATA : Nat := 64
/-- Line 73: `#define XSORT_CONTROL_ADDR_priors_DATA 0x28`. -/
def XSORT_CONTROL_ADDR_priors_DATA : Nat := 0x28
/-- Line 74: `#define XSORT_CONTROL_BITS_priors_DATA 64`. -/
def XSORT_CONTROL_BITS_priors_DATA : Nat := 64
/-- Line 75: `#define XSORT_CONTROL_ADDR_outBoxes_DATA 0x34`. -/
def XSORT_CONTROL_ADDR_outBoxes_DATA : Nat := 0x34
/-- Line 76: `#define XSORT_CONTROL_BITS_outBoxes_DATA 64`. -/
def XSORT_CONTROL_BITS_outBoxes_DATA : Nat := 64
/-- Line 77: `#define XSORT_CONTROL_ADDR_SCALAR_DATA1 0x40`. -/
def XSORT_CONTROL_ADDR_SCALAR_DATA1 : Nat := 0x40
/-- Line 78: `#define XSORT_CONTROL_BITS_SCALAR_DATA1 32`. -/
def XSORT_CONTROL_BITS_SCALAR_DATA1 : Nat := 32
/-- Line 79: `#define XSORT_CONTROL_ADDR_SCALAR_DATA 0x48`. -/
def XSORT_CONTROL_ADDR_SCALAR_DATA : Nat := 0x48
/-- Line 80: `#define XSORT_CONTROL_BITS_SCALAR_DATA 32`. -/
def XSORT_CONTROL_BITS_SCALAR_DATA : Nat := 32

/-! ## Table view of the constants -/

/-- The ten registers the header names, one constructor per `ADDR` constant. -/
inductive RegId where
  | AP_CTRL
  | GIE
  | IER
  | ISR
  | inConf
  | inBox
  | priors
  | outBoxes
  | SCALAR_DATA1
  | SCALAR_DATA
deriving DecidableEq, Repr

/-- The registers in the order in which the header declares them. -/
def declared : List RegId :=
  [.AP_CTRL, .GIE, .IER, .ISR, .inConf, .inBox, .priors, .outBoxes,
   .SCALAR_DATA1, .SCALAR_DATA]

/-- Byte offset of a register: its `XSORT_CONTROL_ADDR_*` constant. -/
def RegId.addr : RegId → Nat
  | .AP_CTRL => XSORT_CONTROL_ADDR_AP_CTRL
  | .GIE => XSORT_CONTROL_ADDR_GIE
  | .IER => XSORT_CONTROL_ADDR_IER
  | .ISR => XSORT_CONTROL_ADDR_ISR
  | .inConf => XSORT_CONTROL_ADDR_inConf_DATA
  | .inBox => XSORT_CONTROL_ADDR_inBox_DATA
  | .priors => XSORT_CONTROL_ADDR_priors_DATA
  | .outBoxes => XSORT_CONTROL_ADDR_outBoxes_DATA
  | .SCALAR_DATA1 => XSORT_CONTROL_ADDR_SCALAR_DATA1
  | .SCALAR_DATA => XSORT_CONTROL_ADDR_SCALAR_DATA

/-- Bit width of a register: its `XSORT_CONTROL_BITS_*` constant.  The four
control/status registers have no such constant in the header. -/
def RegId.bits : RegId → Option Nat
  | .AP_CTRL => none
  | .GIE => none
  | .IER => none
  | .ISR => none
  | .inConf => some XSORT_CONTROL_BITS_inConf_DATA
  | .inBox => some XSORT_CONTROL_BITS_inBox_DATA
  | .priors => some XSORT_CONTROL_BITS_priors_DATA
  | .outBoxes => some XSORT_CONTROL_BITS_outBoxes_DATA
  | .SCALAR_DATA1 => some XSORT_CONTROL_BITS_SCALAR_DATA1
  | .SCALAR_DATA => some XSORT_CONTROL_BITS_SCALAR_DATA

/-- The registers that carry a `BITS` constant (data and scalar arguments),
in declaration order. -/
def dataRegs : List RegId :=
  declared.filter (fun r => r.bits.isSome)

/-- The registers without a `BITS` constant (control and status), in
declaration order. -/
def controlRegs : List RegId :=
  declared.filter (fun r => r.bits.isNone)

/-- Width of a register in bytes: `BITS / 8` when the header gives a width,
one 32-bit word (4 bytes) for a control/status register. -/
def RegId.byteWidth (r : RegId) : Nat :=
  match r.bits with
  | some b => b / 8
  | none => 4

/-- Byte offset `off` lies in the range `[ADDR, ADDR + width)` of `r`. -/
def RegId.covers (r : RegId) (off : Nat) : Prop :=
  r.addr ≤ off ∧ off < r.addr + r.byteWidth

instance (r : RegId) (off : Nat) : Decidable (r.covers off) :=
  inferInstanceAs (Decidable (_ ∧ _))

/-- The 32-bit words a register occupies: `ADDR`, `ADDR + 4`, ... -/
def RegId.words (r : RegId) : List Nat :=
  (List.range (r.byteWidth / 4)).map (fun i => r.addr + 4 * i)

/-- The registers among `rs` whose `ADDR` constant equals `a`. -/
def definedAt (rs : List RegId) (a : Nat) : List RegId :=
  rs.filter (fun r => r.addr == a)

/-- Byte offset `off` lies in the byte range of no register among `rs`. -/
def unusedIn (rs : List RegId) (off : Nat) : Prop :=
  ∀ r ∈ rs, ¬ r.covers off

instance (rs : List RegId) (off : Nat) : Decidable (unusedIn rs off) :=
  inferInstanceAs (Decidable (∀ r ∈ rs, _))

/-- The 32-bit word at byte offset `w` is reserved with respect to `rs`: none
of its four bytes lies in the range of a register among `rs`. -/
def reservedWord (rs : List RegId) (w : Nat) : Prop :=
  unusedIn rs w ∧ unusedIn rs (w + 1) ∧ unusedIn rs (w + 2) ∧ unusedIn rs (w + 3)

instance (rs : List RegId) (w : Nat) : Decidable (reservedWord rs w) :=
  inferInstanceAs (Decidable (_ ∧ _ ∧ _ ∧ _))

/-- Two registers share no byte offset. -/
def RegId.disjoint (a b : RegId) : Prop :=
  ∀ off, ¬ (a.covers off ∧ b.covers off)

/-- Interval form of disjointness: one range ends before the other starts. -/
def RegId.apart (a b : RegId) : Prop :=
  a.addr + a.byteWidth ≤ b.addr ∨ b.addr + b.byteWidth ≤ a.addr

instance (a b : RegId) : Decidable (a.apart b) :=
  inferInstanceAs (Decidable (_ ∨ _))

/-- The packing step from `a` to `b`: `b` starts after the argument bytes of
`a` plus one reserved 32-bit word.  Fails when `a` has no `BITS` constant. -/
def packedNext (a b : RegId) : Prop :=
  a.bits.map (fun w => a.addr + w / 8 + 4) = some b.addr

instance (a b : RegId) : Decidable (packedNext a b) :=
  inferInstanceAs (Decidable (_ = _))

/-- The statement of the stale register-map comment (lines 53-55) read against
the constants: every data register defined at `0x28` is 32 bits wide, there is
one, and byte `0x2c` belongs to no data register. -/
def commentLayout0x28 : Prop :=
  definedAt dataRegs 0x28 ≠ [] ∧
  (∀ r ∈ definedAt dataRegs 0x28, r.bits = some 32) ∧
  unusedIn dataRegs 0x2c

instance : Decidable commentLayout0x28 :=
  inferInstanceAs (Decidable (_ ∧ _ ∧ _))

/-! ## Helper lemmas -/

theorem apart_disjoint (a b : RegId) (h : a.apart b) : a.disjoint b := by
  intro off hab
  obtain ⟨⟨ha1, ha2⟩, hb1, hb2⟩ := hab
  rcases h with h | h <;> omega

theorem dataRegs_eq :
    dataRegs = [.inConf, .inBox, .priors, .outBoxes, .SCALAR_DATA1, .SCALAR_DATA] := by
  decide

theorem controlRegs_eq : controlRegs = [.AP_CTRL, .GIE, .IER, .ISR] := by
  decide

/-! ## Claims -/

/-- C1: the four data-argument registers have the offsets 0x10, 0x1c, 0x28,
0x34, and each of their four `BITS` constants equals 64; the table view agrees
with the constants. -/
theorem data_argument_registers :
    XSORT_CONTROL_ADDR_inConf_DATA = 0x10 ∧
    XSORT_CONTROL_ADDR_inBox_DATA = 0x1c ∧
    XSORT_CONTROL_ADDR_priors_DATA = 0x28 ∧
    XSORT_CONTROL_ADDR_outBoxes_DATA = 0x34 ∧
    XSORT_CONTROL_BITS_inConf_DATA = 64 ∧
    XSORT_CONTROL_BITS_inBox_DATA = 64 ∧
    XSORT_CONTROL_BITS_priors_DATA = 64 ∧
    XSORT_CONTROL_BITS_outBoxes_DATA = 64 ∧
    [RegId.inConf, .inBox, .priors, .outBoxes].map RegId.addr
      = [0x10, 0x1c, 0x28, 0x34] ∧
    [RegId.inConf, .inBox, .priors, .outBoxes].map RegId.bits
      = [some 64, some 64, some 64, some 64] := by
  decide

/-- C2: the four control/status registers sit at the offsets 0x00 (AP_CTRL),
0x04 (GIE), 0x08 (IER) and 0x0c (ISR), and they are exactly the registers
without a width constant. -/
theorem control_register_offsets :
    XSORT_CONTROL_ADDR_AP_CTRL = 0x00 ∧
    XSORT_CONTROL_ADDR_GIE = 0x04 ∧
    XSORT_CONTROL_ADDR_IER = 0x08 ∧
    XSORT_CONTROL_ADDR_ISR = 0x0c ∧
    controlRegs.map RegId.addr = [0x00, 0x04, 0x08, 0x0c] := by
  decide

/-- C3: the two scalar-argument registers: SCALAR_DATA1 at 0x40, 32 bits wide,
and SCALAR_DATA at 0x48, 32 bits wide. -/
theorem scalar_argument_registers :
    XSORT_CONTROL_ADDR_SCALAR_DATA1 = 0x40 ∧
    XSORT_CONTROL_BITS_SCALAR_DATA1 = 32 ∧
    XSORT_CONTROL_ADDR_SCALAR_DATA = 0x48 ∧
    XSORT_CONTROL_BITS_SCALAR_DATA = 32 ∧
    RegId.SCALAR_DATA1.addr = 0x40 ∧ RegId.SCALAR_DATA1.bits = some 32 ∧
    RegId.SCALAR_DATA.addr = 0x48 ∧ RegId.SCALAR_DATA.bits = some 32 := by
  decide

/-- C4, as stated, fails: the layout of the register-map comment (a 32-bit
register at 0x28, byte 0x2c in no data register) does not hold of the
constants.  The only data register defined at 0x28 is `priors`, its `BITS`
constant is 64 and not 32, and byte 0x2c lies in its range. -/
theorem comment_layout_0x28_fails :
    ¬ commentLayout0x28 ∧
    definedAt dataRegs 0x28 = [.priors] ∧
    RegId.priors.bits ≠ some 32 ∧
    ¬ unusedIn dataRegs 0x2c ∧
    RegId.priors.covers 0x2c := by
  decide

/-- C4, amended: the register defined with address 0x28 (`priors`) has a
`BITS` constant equal to 64; it occupies the two words 0x28 and 0x2c, byte
0x2c lies in its range and in the range of no other register, and the word
that follows it, at 0x30, is reserved: it lies in the range of no defined
register. -/
theorem priors_is_64_bits_wide :
    definedAt declared 0x28 = [.priors] ∧
    RegId.priors.bits = some 64 ∧
    XSORT_CONTROL_BITS_priors_DATA = 64 ∧
    RegId.priors.words = [0x28, 0x2c] ∧
    declared.filter (fun r => decide (r.covers 0x2c)) = [.priors] ∧
    reservedWord declared 0x30 := by
  decide

/-- C5: the 64-bit registers at 0x10 (`inConf`) and 0x1c (`inBox`) each
occupy exactly two consecutive 32-bit words, 0x10/0x14 and 0x1c/0x20 (their
byte ranges are exactly the bytes of those words), and the words that follow
them, 0x18 and 0x24, lie in the byte range of no defined register. -/
theorem inConf_inBox_two_words_then_reserved :
    definedAt declared 0x10 = [.inConf] ∧
    definedAt declared 0x1c = [.inBox] ∧
    RegId.inConf.bits = some 64 ∧
    RegId.inBox.bits = some 64 ∧
    RegId.inConf.words = [0x10, 0x14] ∧
    RegId.inBox.words = [0x1c, 0x20] ∧
    RegId.inConf.words = [RegId.inConf.addr, RegId.inConf.addr + 4] ∧
    RegId.inBox.words = [RegId.inBox.addr, RegId.inBox.addr + 4] ∧
    (∀ off, RegId.inConf.covers off ↔ 4 * (off / 4) ∈ RegId.inConf.words) ∧
    (∀ off, RegId.inBox.covers off ↔ 4 * (off / 4) ∈ RegId.inBox.words) ∧
    reservedWord declared 0x18 ∧
    reservedWord declared 0x24 := by
  refine ⟨by decide, by decide, by decide, by decide, by decide, by decide,
    by decide, by decide, ?_, ?_, by decide, by decide⟩
  · intro off
    have hw : RegId.inConf.words = [0x10, 0x14] := by decide
    have ha : RegId.inConf.addr = 0x10 := by decide
    have hb : RegId.inConf.byteWidth = 8 := by decide
    simp only [RegId.covers, hw, ha, hb, List.mem_cons, List.mem_singleton,
      List.not_mem_nil, or_false]
    omega
  · intro off
    have hw : RegId.inBox.words = [0x1c, 0x20] := by decide
    have ha : RegId.inBox.addr = 0x1c := by decide
    have hb : RegId.inBox.byteWidth = 8 := by decide
    simp only [RegId.covers, hw, ha, hb, List.mem_cons, List.mem_singleton,
      List.not_mem_nil, or_false]
    omega

/-- C6: no two registers of the map overlap.  With each control register 4
bytes wide and each data/scalar register `BITS / 8` bytes wide, the ten byte
ranges `[ADDR, ADDR + width)` are pairwise disjoint (no byte offset lies in
two of them), and the offsets strictly increase in declaration order. -/
theorem register_ranges_pairwise_disjoint :
    declared.length = 10 ∧
    declared.Nodup ∧
    declared.map RegId.byteWidth = [4, 4, 4, 4, 8, 8, 8, 8, 4, 4] ∧
    declared.Pairwise RegId.disjoint ∧
    declared.Pairwise (fun a b => b.disjoint a) ∧
    (declared.map RegId.addr).Pairwise (fun x y => x < y) := by
  have hap : declared.Pairwise RegId.apart := by decide
  have hap2 : declared.Pairwise (fun a b => b.apart a) := by decide
  refine ⟨by decide, by decide, by decide, ?_, ?_, by decide⟩
  · exact hap.imp (fun {a b} h => apart_disjoint a b h)
  · exact hap2.imp (fun {a b} h => apart_disjoint b a h)

/-- C7: the data registers follow the packing rule "argument words plus one
reserved word": for every consecutive pair of data/scalar registers in
declaration order, `ADDR(next) = ADDR(current) + BITS(current) / 8 + 4`, and
the first data register starts right after the last control register,
`ADDR(inConf) = XSORT_CONTROL_ADDR_ISR + 4`. -/
theorem data_registers_packed :
    dataRegs = [.inConf, .inBox, .priors, .outBoxes, .SCALAR_DATA1, .SCALAR_DATA] ∧
    dataRegs.Chain' packedNext ∧
    XSORT_CONTROL_ADDR_inBox_DATA
      = XSORT_CONTROL_ADDR_inConf_DATA + XSORT_CONTROL_BITS_inConf_DATA / 8 + 4 ∧
    XSORT_CONTROL_ADDR_priors_DATA
      = XSORT_CONTROL_ADDR_inBox_DATA + XSORT_CONTROL_BITS_inBox_DATA / 8 + 4 ∧
    XSORT_CONTROL_ADDR_outBoxes_DATA
      = XSORT_CONTROL_ADDR_priors_DATA + XSORT_CONTROL_BITS_priors_DATA / 8 + 4 ∧
    XSORT_CONTROL_ADDR_SCALAR_DATA1
      = XSORT_CONTROL_ADDR_outBoxes_DATA + XSORT_CONTROL_BITS_outBoxes_DATA / 8 + 4 ∧
    XSORT_CONTROL_ADDR_SCALAR_DATA
      = XSORT_CONTROL_ADDR_SCALAR_DATA1 + XSORT_CONTROL_BITS_SCALAR_DATA1 / 8 + 4 ∧
    controlRegs.getLast? = some .ISR ∧
    dataRegs.head? = some .inConf ∧
    XSORT_CONTROL_ADDR_inConf_DATA = XSORT_CONTROL_ADDR_ISR + 4 := by
  refine ⟨dataRegs_eq, ?_, by decide, by decide, by decide, by decide, by decide,
    by decide, by decide, by decide⟩
  rw [dataRegs_eq]
  repeat first
    | exact List.chain'_singleton _
    | refine List.chain'_cons.mpr ⟨by decide, ?_⟩

end XSort
